import Mathlib

/-!
Verification development for the blog MCP server's AI orchestration and
content pipeline.  The Lean definitions below are shallow embeddings of the
Python functions in `src/blog_mcp_server/` (file and function names are kept
where Lean allows).  Machine-level caveats of the embedding:

* Python's Unicode character classes (`\w`, `\s`, `str.lower`) are modelled on
  the ASCII range plus the CJK Unified Ideographs block `U+4E00`..`U+9FFF`
  that the source regexes name explicitly; all concrete inputs used in
  theorems stay inside this modelled alphabet.
* Python floats are modelled by exact rationals; `round` is modelled as
  round-half-to-even, which agrees with CPython on every value whose distance
  to a tie is larger than the floating-point error, in particular on all
  inputs appearing below.
-/

/-! ## Character classes (zola_utils.py regexes) -/

/-- CJK Unified Ideographs range `一-鿿` used by the source regexes. -/
def isCJK (c : Char) : Bool :=
  19968 ≤ c.toNat && c.toNat ≤ 40959

/-- Model of Python's `\s` / `str.split` whitespace (ASCII part: tab, LF, VT,
FF, CR, space). -/
def pyIsSpace (c : Char) : Bool :=
  [9, 10, 11, 12, 13, 32].contains c.toNat

/-- Model of Python's `\w` word characters (ASCII letters, digits, underscore,
plus CJK ideographs, which are word characters in Python's Unicode mode). -/
def pyWordChar (c : Char) : Bool :=
  c.isAlpha || c.isDigit || c == '_' || isCJK c

/-- Characters kept by `re.sub(r'[^\w\s\-一-鿿]', '', title)` in
`ZolaUtils.generate_slug`: word characters, whitespace, hyphen, CJK. -/
def keptChar (c : Char) : Bool :=
  pyWordChar c || pyIsSpace c || c == '-' || isCJK c

/-! ## Slug pipeline (ZolaUtils.generate_slug / _chinese_to_slug) -/

/-- Model of `re.sub(r'[\s]+', '-', slug)`: each maximal whitespace run is
replaced by a single hyphen. -/
def spaceRunsToHyphen : List Char → List Char
  | [] => []
  | [c] => if pyIsSpace c then ['-'] else [c]
  | a :: b :: rest =>
    if pyIsSpace a then
      if pyIsSpace b then spaceRunsToHyphen (b :: rest)
      else '-' :: spaceRunsToHyphen (b :: rest)
    else a :: spaceRunsToHyphen (b :: rest)

/-- Model of `re.sub(r'-+', '-', slug)`: each maximal hyphen run is collapsed
to a single hyphen. -/
def collapseHyphens : List Char → List Char
  | [] => []
  | [c] => [c]
  | a :: b :: rest =>
    if a == '-' && b == '-' then collapseHyphens (b :: rest)
    else a :: collapseHyphens (b :: rest)

/-- Leading half of Python's `slug.strip('-')`. -/
def dropLeadingHyphens (cs : List Char) : List Char :=
  cs.dropWhile (fun c => c == '-')

/-- Trailing half of Python's `slug.strip('-')`. -/
def dropTrailingHyphens : List Char → List Char
  | [] => []
  | c :: rest =>
    match dropTrailingHyphens rest with
    | [] => if c == '-' then [] else [c]
    | r => c :: r

/-- Model of `slug.strip('-')`. -/
def stripHyphens (cs : List Char) : List Char :=
  dropTrailingHyphens (dropLeadingHyphens cs)

/-- Naive substring test, modelling Python's `keyword in title`: does
`needle` start `hay`? -/
def startsWithCh : List Char → List Char → Bool
  | [], _ => true
  | _ :: _, [] => false
  | a :: as, b :: bs => a == b && startsWithCh as bs

/-- Python's `needle in hay` substring containment. -/
def containsSub (needle : List Char) : List Char → Bool
  | [] => needle.isEmpty
  | c :: rest => startsWithCh needle (c :: rest) || containsSub needle rest

/-- The fixed keyword table of `ZolaUtils._chinese_to_slug`, in source
(insertion) order. -/
def keyword_map : List (String × String) :=
  [("AI", "ai"),
   ("人工智能", "artificial-intelligence"),
   ("机器学习", "machine-learning"),
   ("深度学习", "deep-learning"),
   ("博客", "blog"),
   ("教程", "tutorial"),
   ("指南", "guide"),
   ("实践", "practice"),
   ("技术", "technology"),
   ("开发", "development"),
   ("编程", "programming"),
   ("代码", "code"),
   ("项目", "project"),
   ("工具", "tools"),
   ("框架", "framework"),
   ("部署", "deployment"),
   ("优化", "optimization"),
   ("分析", "analysis"),
   ("设计", "design"),
   ("客栈", "guesthouse"),
   ("丽江", "lijiang")]

/-- Model of Python's `"-".join(parts)`. -/
def joinHyphen : List String → String
  | [] => ""
  | [p] => p
  | p :: q :: rest => p ++ "-" ++ joinHyphen (q :: rest)

/-- Model of `ZolaUtils._chinese_to_slug`: collect the English values of all
table keywords occurring in the title (in table order), keep at most three and
join them with hyphens; with no match fall back to `post-<YYYYMMDD>`.  The
current date produced by `datetime.now().strftime('%Y%m%d')` is passed in as
the `dateStr` parameter. -/
def chinese_to_slug (dateStr : String) (title : String) : String :=
  let parts := keyword_map.filterMap
    (fun p => if containsSub p.1.data title.data then some p.2 else none)
  match parts with
  | [] => "post-" ++ dateStr
  | _ => joinHyphen (parts.take 3)

/-- Model of `ZolaUtils.generate_slug`: remove characters outside
word/whitespace/hyphen/CJK, turn whitespace runs into hyphens, lowercase,
collapse hyphen runs, strip edge hyphens; when the result is non-empty and
purely CJK-or-hyphen, delegate to `chinese_to_slug` on the original title. -/
def generate_slug (dateStr : String) (title : String) : String :=
  let s1 := title.data.filter keptChar
  let s2 := spaceRunsToHyphen s1
  let s3 := s2.map Char.toLower
  let s4 := collapseHyphens s3
  let s5 := stripHyphens s4
  if !s5.isEmpty && s5.all (fun c => isCJK c || c == '-') then
    chinese_to_slug dateStr title
  else
    ⟨s5⟩

/-! ## Hyphen-structure predicates for slugs -/

/-- Scanner for two consecutive hyphens. -/
def hasDbl : List Char → Bool
  | [] => false
  | [_] => false
  | a :: b :: rest => (a == '-' && b == '-') || hasDbl (b :: rest)

/-- First character, if any, is not a hyphen. -/
def headOkB (cs : List Char) : Bool :=
  match cs with
  | [] => true
  | c :: _ => !(c == '-')

/-- Last character, if any, is not a hyphen. -/
def lastOkB (cs : List Char) : Bool :=
  match cs.getLast? with
  | none => true
  | some c => !(c == '-')

/-- A (possibly empty) character list with no consecutive hyphens and no
leading or trailing hyphen. -/
def slugGood (cs : List Char) : Bool :=
  headOkB cs && lastOkB cs && !hasDbl cs

/-- A non-empty chunk with no edge hyphens and no consecutive hyphens (the
shape of each keyword-table value). -/
def goodChunk (cs : List Char) : Bool :=
  !cs.isEmpty && headOkB cs && lastOkB cs && !hasDbl cs

/-! ## Lemmas about the hyphen structure of slugs -/

theorem hasDbl_cons_false {a : Char} {cs : List Char}
    (h : hasDbl (a :: cs) = false) : hasDbl cs = false := by
  cases cs with
  | nil => rfl
  | cons b rest =>
    simp only [hasDbl, Bool.or_eq_false_iff] at h
    exact h.2

theorem collapseHyphens_head (cs : List Char) :
    ∀ a, (collapseHyphens (a :: cs)).head? = some a := by
  induction cs with
  | nil => intro a; simp [collapseHyphens]
  | cons b rest ih =>
    intro a
    by_cases h : (a == '-' && b == '-') = true
    · have hab : a = b := by
        rcases Bool.and_eq_true _ _ |>.mp h with ⟨h1, h2⟩
        rw [beq_iff_eq] at h1 h2
        rw [h1, h2]
      rw [collapseHyphens, if_pos h, ih b, hab]
    · rw [collapseHyphens, if_neg h]
      rfl

theorem collapseHyphens_noDbl (cs : List Char) :
    hasDbl (collapseHyphens cs) = false := by
  induction cs with
  | nil => rfl
  | cons a cs ih =>
    cases cs with
    | nil => rfl
    | cons b rest =>
      by_cases h : (a == '-' && b == '-') = true
      · rw [collapseHyphens, if_pos h]
        exact ih
      · obtain ⟨t, ht⟩ : ∃ t, collapseHyphens (b :: rest) = b :: t := by
          have hh := collapseHyphens_head rest b
          cases hcb : collapseHyphens (b :: rest) with
          | nil => rw [hcb] at hh; simp at hh
          | cons x xs =>
            rw [hcb] at hh
            simp only [List.head?_cons, Option.some.injEq] at hh
            exact ⟨xs, by rw [hh]⟩
        rw [collapseHyphens, if_neg h, ht, hasDbl, ← ht, ih]
        simp only [Bool.or_false]
        exact Bool.not_eq_true _ |>.mp h

theorem dropLeadingHyphens_headOk (cs : List Char) :
    headOkB (dropLeadingHyphens cs) = true := by
  induction cs with
  | nil => rfl
  | cons c rest ih =>
    by_cases h : (c == '-') = true
    · rw [dropLeadingHyphens, List.dropWhile_cons, if_pos h]
      exact ih
    · rw [dropLeadingHyphens, List.dropWhile_cons, if_neg h, headOkB]
      simp [Bool.not_eq_true _ |>.mp h]

theorem dropLeadingHyphens_noDbl {cs : List Char} (h : hasDbl cs = false) :
    hasDbl (dropLeadingHyphens cs) = false := by
  induction cs with
  | nil => rfl
  | cons c rest ih =>
    by_cases hc : (c == '-') = true
    · rw [dropLeadingHyphens, List.dropWhile_cons, if_pos hc]
      exact ih (hasDbl_cons_false h)
    · rw [dropLeadingHyphens, List.dropWhile_cons, if_neg hc]
      exact h

theorem dropTrailingHyphens_head (cs : List Char) :
    dropTrailingHyphens cs = [] ∨
      (dropTrailingHyphens cs).head? = cs.head? := by
  cases cs with
  | nil => exact Or.inl rfl
  | cons c rest =>
    rw [dropTrailingHyphens]
    cases hr : dropTrailingHyphens rest with
    | nil =>
      by_cases hc : (c == '-') = true
      · rw [if_pos hc]; exact Or.inl rfl
      · rw [if_neg hc]; exact Or.inr rfl
    | cons x xs => exact Or.inr rfl

theorem dropTrailingHyphens_lastOk (cs : List Char) :
    lastOkB (dropTrailingHyphens cs) = true := by
  induction cs with
  | nil => rfl
  | cons c rest ih =>
    rw [dropTrailingHyphens]
    cases hr : dropTrailingHyphens rest with
    | nil =>
      by_cases hc : (c == '-') = true
      · rw [if_pos hc]; rfl
      · rw [if_neg hc, lastOkB]
        simp [Bool.not_eq_true _ |>.mp hc]
    | cons x xs =>
      rw [lastOkB, List.getLast?_cons_cons]
      rw [hr, lastOkB] at ih
      exact ih

theorem dropTrailingHyphens_noDbl {cs : List Char} (h : hasDbl cs = false) :
    hasDbl (dropTrailingHyphens cs) = false := by
  induction cs with
  | nil => rfl
  | cons c rest ih =>
    have ih' := ih (hasDbl_cons_false h)
    rw [dropTrailingHyphens]
    cases hr : dropTrailingHyphens rest with
    | nil =>
      by_cases hc : (c == '-') = true
      · rw [if_pos hc]; rfl
      · rw [if_neg hc]; rfl
    | cons x xs =>
      rw [hasDbl]
      rw [hr] at ih'
      rw [ih', Bool.or_false]
      rcases dropTrailingHyphens_head rest with he | hh
      · rw [he] at hr; exact absurd hr (by simp)
      · rw [hr] at hh
        cases rest with
        | nil => simp at hh
        | cons y ys =>
          simp only [List.head?_cons, Option.some.injEq] at hh
          rw [hasDbl, ← hh] at h
          rcases Bool.or_eq_false_iff.mp h with ⟨h1, _⟩
          exact h1

theorem headOkB_of_head? {cs : List Char} (h : ∀ c, cs.head? = some c → (c == '-') = false) :
    headOkB cs = true := by
  cases cs with
  | nil => rfl
  | cons c rest =>
    rw [headOkB, h c rfl]
    rfl

theorem stripHyphens_good {cs : List Char} (h : hasDbl cs = false) :
    slugGood (stripHyphens cs) = true := by
  rw [slugGood, stripHyphens]
  have h1 : hasDbl (dropTrailingHyphens (dropLeadingHyphens cs)) = false :=
    dropTrailingHyphens_noDbl (dropLeadingHyphens_noDbl h)
  have h2 : lastOkB (dropTrailingHyphens (dropLeadingHyphens cs)) = true :=
    dropTrailingHyphens_lastOk _
  have h3 : headOkB (dropTrailingHyphens (dropLeadingHyphens cs)) = true := by
    rcases dropTrailingHyphens_head (dropLeadingHyphens cs) with he | hh
    · rw [he]; rfl
    · apply headOkB_of_head?
      intro c hc
      rw [hc] at hh
      have hok := dropLeadingHyphens_headOk cs
      cases hdl : dropLeadingHyphens cs with
      | nil => rw [hdl] at hh; simp at hh
      | cons x xs =>
        rw [hdl] at hh
        simp only [List.head?_cons, Option.some.injEq] at hh
        rw [hdl, headOkB] at hok
        rw [← hh] at hok
        exact Bool.not_eq_true' .. |>.mp hok
  rw [h1, h2, h3]
  rfl

/-- Boundary test for hyphen pairs across an append. -/
def hyphenBoundary (xs ys : List Char) : Bool :=
  match xs.getLast?, ys.head? with
  | some a, some b => a == '-' && b == '-'
  | _, _ => false

theorem hyphenBoundary_cons_cons (a b : Char) (rest ys : List Char) :
    hyphenBoundary (a :: b :: rest) ys = hyphenBoundary (b :: rest) ys := by
  rw [hyphenBoundary, hyphenBoundary, List.getLast?_cons_cons]

theorem hasDbl_append (xs ys : List Char) :
    hasDbl (xs ++ ys) = (hasDbl xs || hasDbl ys || hyphenBoundary xs ys) := by
  induction xs with
  | nil =>
    simp [hasDbl, hyphenBoundary]
  | cons a tail ih =>
    cases tail with
    | nil =>
      cases ys with
      | nil => simp [hasDbl, hyphenBoundary]
      | cons y t => simp [hasDbl, hyphenBoundary, Bool.or_comm]
    | cons b rest =>
      have h0 : (a :: b :: rest) ++ ys = a :: ((b :: rest) ++ ys) := rfl
      have hcons : ((b :: rest) ++ ys) = b :: (rest ++ ys) := rfl
      rw [h0, hcons, hasDbl, ← hcons, ih, hyphenBoundary_cons_cons]
      have h1 : hasDbl (a :: b :: rest) = ((a == '-' && b == '-') || hasDbl (b :: rest)) := rfl
      rw [h1]
      cases (a == '-' && b == '-') <;> cases hasDbl (b :: rest) <;>
        cases hasDbl ys <;> cases hyphenBoundary (b :: rest) ys <;> rfl

theorem goodChunk_append_hyphen {xs ys : List Char}
    (hx : goodChunk xs = true) (hy : goodChunk ys = true) :
    goodChunk (xs ++ '-' :: ys) = true := by
  simp only [goodChunk, Bool.and_eq_true, Bool.not_eq_true'] at hx hy
  obtain ⟨⟨⟨hxne, hxh⟩, hxl⟩, hxd⟩ := hx
  obtain ⟨⟨⟨hyne, hyh⟩, hyl⟩, hyd⟩ := hy
  simp only [goodChunk, Bool.and_eq_true, Bool.not_eq_true']
  refine ⟨⟨⟨?_, ?_⟩, ?_⟩, ?_⟩
  · cases xs with
    | nil => simp at hxne
    | cons x t => rfl
  · cases xs with
    | nil => simp at hxne
    | cons x t =>
      rw [List.cons_append, headOkB] at *
      exact hxh
  · cases ys with
    | nil => simp at hyne
    | cons y t =>
      obtain ⟨z, hz⟩ : ∃ z, (y :: t).getLast? = some z := by
        cases hg : (y :: t).getLast? with
        | none => exact absurd (List.getLast?_eq_none_iff.mp hg) (by simp)
        | some z => exact ⟨z, rfl⟩
      have hgl : (xs ++ '-' :: y :: t).getLast? = some z := by
        rw [List.getLast?_append, List.getLast?_cons_cons, hz]
        rfl
      rw [lastOkB, hgl]
      rw [lastOkB, hz] at hyl
      exact hyl
  · rw [hasDbl_append, hxd]
    have h1 : hasDbl ('-' :: ys) = false := by
      cases ys with
      | nil => rfl
      | cons y t =>
        rw [hasDbl]
        rw [headOkB] at hyh
        simp only [Bool.not_eq_eq_eq_not, Bool.not_true] at hyh
        rw [hyd, hyh]
        rfl
    rw [h1]
    have h2 : hyphenBoundary xs ('-' :: ys) = false := by
      rw [hyphenBoundary]
      cases hgl : xs.getLast? with
      | none => rfl
      | some z =>
        rw [lastOkB, hgl] at hxl
        simp only [Bool.not_eq_eq_eq_not, Bool.not_true] at hxl
        simp [hxl]
    rw [h2]
    rfl

theorem joinHyphen_goodChunk :
    ∀ ps : List String, ps ≠ [] → (∀ p ∈ ps, goodChunk p.data = true) →
      goodChunk (joinHyphen ps).data = true := by
  intro ps
  induction ps with
  | nil => intro h; exact absurd rfl h
  | cons p tail ih =>
    intro _ hall
    cases tail with
    | nil => exact hall p (List.mem_singleton.mpr rfl)
    | cons q rest =>
      have hp : goodChunk p.data = true := hall p (List.mem_cons_self _ _)
      have hj : goodChunk (joinHyphen (q :: rest)).data = true :=
        ih (by simp) (fun x hx => hall x (List.mem_cons_of_mem p hx))
      have hdata : (joinHyphen (p :: q :: rest)).data
          = p.data ++ '-' :: (joinHyphen (q :: rest)).data := by
        rw [joinHyphen, String.data_append, String.data_append, List.append_assoc]
        rfl
      rw [hdata]
      exact goodChunk_append_hyphen hp hj

theorem slugGood_of_goodChunk {cs : List Char} (h : goodChunk cs = true) :
    slugGood cs = true := by
  simp only [goodChunk, Bool.and_eq_true] at h
  simp only [slugGood, Bool.and_eq_true]
  exact ⟨⟨h.1.1.2, h.1.2⟩, h.2⟩

/-- Every English value in the keyword table is a non-empty chunk with no edge
or double hyphens (checked by evaluation over the 21 entries). -/
theorem keyword_map_good : ∀ p ∈ keyword_map, goodChunk p.2.data = true := by
  decide

theorem digit_ne_hyphen {c : Char} (h : c.isDigit = true) : (c == '-') = false := by
  cases hc : (c == '-') with
  | false => rfl
  | true =>
    rw [beq_iff_eq] at hc
    subst hc
    exact absurd h (by decide)

theorem digits_noDbl {ds : List Char} (hd : ∀ c ∈ ds, c.isDigit = true) :
    hasDbl ds = false := by
  induction ds with
  | nil => rfl
  | cons a t ih =>
    cases t with
    | nil => rfl
    | cons b r =>
      rw [hasDbl, digit_ne_hyphen (hd a (by simp)), Bool.false_and, Bool.false_or]
      exact ih (fun c hc => hd c (List.mem_cons_of_mem a hc))

theorem digits_lastOk {ds : List Char} (hd : ∀ c ∈ ds, c.isDigit = true) :
    lastOkB ds = true := by
  induction ds with
  | nil => rfl
  | cons a t ih =>
    cases t with
    | nil =>
      rw [lastOkB]
      simp [digit_ne_hyphen (hd a (by simp))]
    | cons b r =>
      rw [lastOkB, List.getLast?_cons_cons, ← lastOkB]
      exact ih (fun c hc => hd c (List.mem_cons_of_mem a hc))

theorem post_slug_good {ds : List Char} (hne : ds ≠ [])
    (hd : ∀ c ∈ ds, c.isDigit = true) :
    slugGood ('p' :: 'o' :: 's' :: 't' :: '-' :: ds) = true := by
  cases ds with
  | nil => exact absurd rfl hne
  | cons a t =>
    simp only [slugGood, Bool.and_eq_true]
    refine ⟨⟨rfl, ?_⟩, ?_⟩
    · rw [lastOkB, List.getLast?_cons_cons, List.getLast?_cons_cons,
        List.getLast?_cons_cons, List.getLast?_cons_cons, List.getLast?_cons_cons,
        ← lastOkB]
      exact digits_lastOk hd
    · have h1 : hasDbl ('p' :: 'o' :: 's' :: 't' :: '-' :: a :: t)
          = ((a == '-') || hasDbl (a :: t)) := rfl
      rw [Bool.not_eq_true', h1, digit_ne_hyphen (hd a (by simp)), Bool.false_or]
      exact digits_noDbl hd

theorem chinese_to_slug_good (dateStr title : String)
    (hne : dateStr.data ≠ []) (hd : ∀ c ∈ dateStr.data, c.isDigit = true) :
    slugGood (chinese_to_slug dateStr title).data = true := by
  simp only [chinese_to_slug]
  cases hp : keyword_map.filterMap
      (fun p => if containsSub p.1.data title.data then some p.2 else none) with
  | nil =>
    have hdata : ("post-" ++ dateStr).data
        = 'p' :: 'o' :: 's' :: 't' :: '-' :: dateStr.data := by
      rw [String.data_append]
      rfl
    rw [hdata]
    exact post_slug_good hne hd
  | cons a l =>
    apply slugGood_of_goodChunk
    apply joinHyphen_goodChunk
    · rw [List.take_succ_cons]
      simp
    · intro p hpmem
      have hmem : p ∈ a :: l := List.mem_of_mem_take hpmem
      rw [← hp] at hmem
      rcases List.mem_filterMap.mp hmem with ⟨q, hq, heq⟩
      by_cases hin : containsSub q.1.data title.data = true
      · rw [if_pos hin, Option.some.injEq] at heq
        rw [← heq]
        exact keyword_map_good q hq
      · rw [if_neg hin] at heq
        exact absurd heq (by simp)

/-! ## Claims C1 and C7: slug generation -/

/-- Claim C1, counterexample.  The claim says `generate_slug` never returns
the empty string and returns only ASCII lowercase letters, digits and single
hyphens.  But the title `"!"` (no word characters at all) slugifies to the
empty string, and the title `"_"` slugifies to `"_"`, which contains an
underscore — a character outside the claimed alphabet. -/
theorem c1_counterexample :
    generate_slug "20250101" "!" = "" ∧ generate_slug "20250101" "_" = "_" :=
  ⟨rfl, rfl⟩

/-- Claim C1 (amended): for every title, the slug produced by `generate_slug`
contains no consecutive hyphens and no leading or trailing hyphen (assuming
the system date renders as a non-empty digit string); however it may be empty
and may contain characters beyond ASCII lowercase letters and digits, such as
underscores or CJK characters. -/
theorem c1_slug_hyphen_structure (dateStr title : String)
    (hne : dateStr.data ≠ []) (hd : ∀ c ∈ dateStr.data, c.isDigit = true) :
    slugGood (generate_slug dateStr title).data = true := by
  simp only [generate_slug]
  split
  · exact chinese_to_slug_good dateStr title hne hd
  · exact stripHyphens_good (collapseHyphens_noDbl _)

/-- Witness for `c1_slug_hyphen_structure` at the concrete date `"20250101"`
and title `"博客"`. -/
theorem c1_witness : slugGood (generate_slug "20250101" "博客").data = true :=
  c1_slug_hyphen_structure "20250101" "博客" (by decide) (by decide)

/-- Claim C7, counterexample.  Slugifying `"AI 博客教程"` yields
`"ai-博客教程"`, not `"ai-blog-tutorial"`: after lowercasing, the slug
contains the Latin letters `ai`, so the purely-Chinese test of
`generate_slug` fails and the keyword table is never consulted. -/
theorem c7_counterexample :
    generate_slug "20250101" "AI 博客教程" = "ai-博客教程" ∧
      "ai-博客教程" ≠ "ai-blog-tutorial" :=
  ⟨rfl, by decide⟩

/-- Claim C7 (amended): slugifying `"AI 博客教程"` yields `"ai-博客教程"`;
the keyword table is applied only to titles whose normalized slug is purely
Chinese, e.g. `"博客教程"`, which does yield `"blog-tutorial"`. -/
theorem c7_slug_value :
    generate_slug "20250101" "AI 博客教程" = "ai-博客教程" ∧
      generate_slug "20250101" "博客教程" = "blog-tutorial" :=
  ⟨rfl, rfl⟩

/-! ## JSON model (Python json.loads, as used by the response parsers) -/

/-- Decoded JSON values as produced by `json.loads`: Python `None`, `bool`,
`int`, `float` (kept as its lexeme — no numeric semantics of floats is
needed), `str`, `list`, `dict` (an association list in document order;
lookups take the last binding, as Python dict construction does). -/
inductive JVal where
  | null
  | bool (b : Bool)
  | int (n : Int)
  | float (lex : String)
  | str (s : String)
  | arr (elems : List JVal)
  | obj (entries : List (String × JVal))

/-- JSON inter-token whitespace (space, tab, LF, CR). -/
def jsonWs (c : Char) : Bool :=
  [32, 9, 10, 13].contains c.toNat

def skipWs : List Char → List Char
  | [] => []
  | c :: rest => if jsonWs c then skipWs rest else c :: rest

def hexVal (c : Char) : Option Nat :=
  if c.isDigit then some (c.toNat - 48)
  else if 97 ≤ c.toNat && c.toNat ≤ 102 then some (c.toNat - 87)
  else if 65 ≤ c.toNat && c.toNat ≤ 70 then some (c.toNat - 55)
  else none

/-- JSON string body (after the opening quote, code 34); handles the escape
sequences of the JSON grammar and rejects raw control characters, as
`json.loads` does in its default strict mode.  A `\uXXXX` escape becomes the
single scalar `Char.ofNat XXXX` (surrogate pairing is not modelled). -/
def pstr : List Char → Option (List Char × List Char)
  | [] => none
  | c :: rest =>
    if c.toNat = 34 then some ([], rest)
    else if c.toNat = 92 then
      match rest with
      | [] => none
      | e :: rest2 =>
        if e.toNat = 34 || e.toNat = 92 || e == '/' then
          (pstr rest2).map (fun pr => (e :: pr.1, pr.2))
        else if e == 'b' then (pstr rest2).map (fun pr => (Char.ofNat 8 :: pr.1, pr.2))
        else if e == 'f' then (pstr rest2).map (fun pr => (Char.ofNat 12 :: pr.1, pr.2))
        else if e == 'n' then (pstr rest2).map (fun pr => (Char.ofNat 10 :: pr.1, pr.2))
        else if e == 'r' then (pstr rest2).map (fun pr => (Char.ofNat 13 :: pr.1, pr.2))
        else if e == 't' then (pstr rest2).map (fun pr => (Char.ofNat 9 :: pr.1, pr.2))
        else if e == 'u' then
          match rest2 with
          | h1 :: h2 :: h3 :: h4 :: rest3 =>
            match hexVal h1, hexVal h2, hexVal h3, hexVal h4 with
            | some a, some b, some c2, some d =>
              (pstr rest3).map
                (fun pr => (Char.ofNat (((a * 16 + b) * 16 + c2) * 16 + d) :: pr.1, pr.2))
            | _, _, _, _ => none
          | _ => none
        else none
    else if c.toNat < 32 then none
    else (pstr rest).map (fun pr => (c :: pr.1, pr.2))

/-- Longest digit run at the front. -/
def digitSpan : List Char → List Char × List Char
  | [] => ([], [])
  | c :: rest =>
    if c.isDigit then
      let p := digitSpan rest
      (c :: p.1, p.2)
    else ([], c :: rest)

def digsToNat (ds : List Char) : Nat :=
  ds.foldl (fun a c => a * 10 + (c.toNat - 48)) 0

/-- Optional exponent suffix of a JSON number; with an exponent (or an
earlier fraction part) the value is a Python float, otherwise an int. -/
def pexp (isFloat : Bool) (lexSoFar : List Char) (intVal : Int)
    (cs : List Char) : Option (JVal × List Char) :=
  match cs with
  | c :: rest =>
    if c == 'e' || c == 'E' then
      let sp : List Char × List Char :=
        match rest with
        | s :: r2 => if s == '+' || s == '-' then ([s], r2) else ([], rest)
        | [] => ([], rest)
      match digitSpan sp.2 with
      | ([], _) => none
      | (es, cs3) => some (.float ⟨lexSoFar ++ c :: (sp.1 ++ es)⟩, cs3)
    else if isFloat then some (.float ⟨lexSoFar⟩, c :: rest)
    else some (.int intVal, c :: rest)
  | [] => if isFloat then some (.float ⟨lexSoFar⟩, []) else some (.int intVal, [])

/-- JSON number per the strict grammar (optional minus, no leading zeros,
optional fraction and exponent).  Integer literals decode to `.int`, others
to `.float`, matching `json.loads`. -/
def pnum (cs : List Char) : Option (JVal × List Char) :=
  let sg : Bool × List Char :=
    match cs with
    | c :: rest => if c == '-' then (true, rest) else (false, cs)
    | [] => (false, cs)
  match digitSpan sg.2 with
  | ([], _) => none
  | (ds, cs2) =>
    if 1 < ds.length ∧ ds.head? = some '0' then none
    else
      let ival : Int := if sg.1 then -(digsToNat ds : Int) else (digsToNat ds : Int)
      let lex0 : List Char := (if sg.1 then ['-'] else []) ++ ds
      match cs2 with
      | c :: rest2 =>
        if c == '.' then
          match digitSpan rest2 with
          | ([], _) => none
          | (fs, cs3) => pexp true (lex0 ++ c :: fs) ival cs3
        else pexp false lex0 ival (c :: rest2)
      | [] => some (.int ival, [])

mutual

/-- One JSON value with surrounding leading whitespace; fuel-indexed
recursive-descent, one fuel unit per nested parser call. -/
def pval : Nat → List Char → Option (JVal × List Char)
  | 0, _ => none
  | fuel + 1, cs =>
    match skipWs cs with
    | 'n' :: 'u' :: 'l' :: 'l' :: rest => some (.null, rest)
    | 't' :: 'r' :: 'u' :: 'e' :: rest => some (.bool true, rest)
    | 'f' :: 'a' :: 'l' :: 's' :: 'e' :: rest => some (.bool false, rest)
    | 'N' :: 'a' :: 'N' :: rest => some (.float "NaN", rest)
    | 'I' :: 'n' :: 'f' :: 'i' :: 'n' :: 'i' :: 't' :: 'y' :: rest =>
      some (.float "Infinity", rest)
    | '-' :: 'I' :: 'n' :: 'f' :: 'i' :: 'n' :: 'i' :: 't' :: 'y' :: rest =>
      some (.float "-Infinity", rest)
    | c :: rest =>
      if c.toNat = 34 then (pstr rest).map (fun pr => (.str ⟨pr.1⟩, pr.2))
      else if c.toNat = 91 then parrStart fuel rest
      else if c.toNat = 123 then pobjStart fuel rest
      else pnum (c :: rest)
    | [] => none

/-- Array body after the opening bracket. -/
def parrStart : Nat → List Char → Option (JVal × List Char)
  | 0, _ => none
  | fuel + 1, cs =>
    match skipWs cs with
    | c :: rest =>
      if c.toNat = 93 then some (.arr [], rest)
      else (parrElems fuel (c :: rest)).map (fun pr => (.arr pr.1, pr.2))
    | [] => none

/-- Comma-separated array elements up to the closing bracket. -/
def parrElems : Nat → List Char → Option (List JVal × List Char)
  | 0, _ => none
  | fuel + 1, cs =>
    match pval fuel cs with
    | none => none
    | some (v, rest) =>
      match skipWs rest with
      | c :: rest2 =>
        if c.toNat = 44 then
          match parrElems fuel rest2 with
          | none => none
          | some (vs, r) => some (v :: vs, r)
        else if c.toNat = 93 then some ([v], rest2)
        else none
      | [] => none

/-- Object body after the opening brace (code 123). -/
def pobjStart : Nat → List Char → Option (JVal × List Char)
  | 0, _ => none
  | fuel + 1, cs =>
    match skipWs cs with
    | c :: rest =>
      if c.toNat = 125 then some (.obj [], rest)
      else (pobjEntries fuel (c :: rest)).map (fun pr => (.obj pr.1, pr.2))
    | [] => none

/-- Comma-separated `"key": value` entries up to the closing brace. -/
def pobjEntries : Nat → List Char → Option (List (String × JVal) × List Char)
  | 0, _ => none
  | fuel + 1, cs =>
    match skipWs cs with
    | c :: rest =>
      if c.toNat = 34 then
        match pstr rest with
        | none => none
        | some (key, rest2) =>
          match skipWs rest2 with
          | d :: rest3 =>
            if d.toNat = 58 then
              match pval fuel rest3 with
              | none => none
              | some (v, rest4) =>
                match skipWs rest4 with
                | e :: rest5 =>
                  if e.toNat = 44 then
                    match pobjEntries fuel rest5 with
                    | none => none
                    | some (es, r) => some ((⟨key⟩, v) :: es, r)
                  else if e.toNat = 125 then some ([(⟨key⟩, v)], rest5)
                  else none
                | [] => none
            else none
          | [] => none
      else none
    | [] => none

end

/-- Model of `json.loads`: parse one value, allow only trailing whitespace;
`none` models a raised `JSONDecodeError`.  The fuel bound exceeds the nesting
a string of this length can produce. -/
def json_loads (s : String) : Option JVal :=
  match pval (2 * s.data.length + 4) s.data with
  | some (v, rest) => if (skipWs rest).isEmpty then some v else none
  | none => none

/-- Python dict lookup (last binding wins, matching dict literal
construction with duplicate keys). -/
def jlookup (kvs : List (String × JVal)) (k : String) : Option JVal :=
  kvs.foldl (fun acc p => if p.1 = k then some p.2 else acc) none

/-- Key access on a decoded value; `none` when absent or not a dict. -/
def jget (v : JVal) (k : String) : Option JVal :=
  match v with
  | .obj kvs => jlookup kvs k
  | _ => none

/-- Python's `d.get(k, dflt)`. -/
def jgetD (kvs : List (String × JVal)) (k : String) (dflt : JVal) : JVal :=
  match jlookup kvs k with
  | some v => v
  | none => dflt

/-! ## ContentService response parsers (content_service.py) -/

/-- Model of `ContentService._parse_content_response`: return the decoded
JSON as-is; on decode failure return the fixed fallback structure with the
raw response in the `content` field. -/
def parse_content_response (response : String) : JVal :=
  match json_loads response with
  | some v => v
  | none => .obj [("title", .str "生成的博文"),
                  ("summary", .str "博文摘要"),
                  ("content", .str response)]

/-- Model of `ContentService._parse_optimization_response`. -/
def parse_optimization_response (response : String) : JVal :=
  match json_loads response with
  | some v => v
  | none => .obj [("content", .str response),
                  ("improvements", .arr [.str "内容已优化"]),
                  ("seo_score", .int 8),
                  ("readability_score", .int 8)]

/-- Model of `ContentService._parse_outline_response`. -/
def parse_outline_response (response : String) : JVal :=
  match json_loads response with
  | some v => v
  | none => .obj [("structure", .arr [.obj [("title", .str "主要内容"),
                                            ("description", .str "大纲内容"),
                                            ("subsections", .arr [])]]),
                  ("estimated_length", .str "2000字"),
                  ("key_points", .arr [.str "要点1", .str "要点2"]),
                  ("resources", .arr [])]

/-- Model of `ContentService._parse_analysis_response`. -/
def parse_analysis_response (response : String) : JVal :=
  match json_loads response with
  | some v => v
  | none => .obj [("seo_score", .int 7),
                  ("readability_score", .int 7),
                  ("engagement_potential", .int 7),
                  ("suggestions", .arr [.str "增加小标题", .str "添加代码示例"])]

/-! ## Reading time (ContentService.estimate_reading_time) -/

/-- The characters removed by `re.sub(r'[#*`\[\]()]', '', content)`:
hash, asterisk, backtick, square brackets, parentheses. -/
def markerChars : List Char :=
  [35, 42, 96, 91, 93, 40, 41].map (fun n => Char.ofNat n)

/-- Formatting-marker stripping before the token count. -/
def stripMarkers (content : String) : List Char :=
  content.data.filter (fun c => !(markerChars.contains c))

/-- Token counter for Python's `str.split()` with no argument: number of
maximal non-whitespace runs.  The flag records whether the previous character
was inside a token. -/
def tokCountAux : Bool → List Char → Nat
  | _, [] => 0
  | inWord, c :: rest =>
    if pyIsSpace c then tokCountAux false rest
    else (if inWord then 0 else 1) + tokCountAux true rest

def tokCount (cs : List Char) : Nat :=
  tokCountAux false cs

/-- Python's `round` to an integer on a quotient `n / 200`: round half to
even.  Exact on every realistic size (the binary float `n / 200` only
misrounds once its magnitude exceeds 2^44). -/
def pyRound200 (n : Nat) : Nat :=
  if 2 * (n % 200) < 200 then n / 200
  else if 200 < 2 * (n % 200) then n / 200 + 1
  else if (n / 200) % 2 = 0 then n / 200 else n / 200 + 1

/-- Reading time as a function of the word count:
`max(1, round(word_count / 200))`. -/
def readingTimeOfCount (n : Nat) : Nat :=
  max 1 (pyRound200 n)

/-- Model of `ContentService.estimate_reading_time`. -/
def estimate_reading_time (content : String) : Nat :=
  readingTimeOfCount (tokCount (stripMarkers content))

/-- The reading-time formula that the specification text states: divide the
token count by 200 and round UP to the next whole minute, floor 1.  Kept
separate so it can be compared with the implementation. -/
def specReadingTime (content : String) : Nat :=
  max 1 ((tokCount (stripMarkers content) + 199) / 200)

/-! ## ContentService pipeline operations

The network call `self.ai_service.generate_text(prompt)` is the only
effectful step of each operation; its outcome enters the models below as an
`Except String String` argument (`.ok response` for a returned string,
`.error e` for a raised exception).  Prompt construction is pure string
formatting with no bearing on the claims. -/

/-- Model of `ContentService.generate_blog_content`: parse the AI response;
the surrounding `try`/`except` logs and re-raises, so failures propagate. -/
def generate_blog_content (ai : Except String String) : Except String JVal :=
  match ai with
  | .error e => .error e
  | .ok r => .ok (parse_content_response r)

/-- Model of `ContentService.optimize_content` (same propagating shape). -/
def optimize_content (ai : Except String String) : Except String JVal :=
  match ai with
  | .error e => .error e
  | .ok r => .ok (parse_optimization_response r)

/-- Model of `ContentService.generate_outline` (same propagating shape). -/
def generate_outline (ai : Except String String) : Except String JVal :=
  match ai with
  | .error e => .error e
  | .ok r => .ok (parse_outline_response r)

/-- The fixed fallback analysis that `analyze_content_performance` returns
from its `except` branch: local statistics plus default scores. -/
def basicAnalysis (content : String) : JVal :=
  .obj [("word_count", .int (tokCount content.data : Int)),
        ("reading_time", .int (estimate_reading_time content : Int)),
        ("seo_score", .int 7),
        ("readability_score", .int 7),
        ("engagement_potential", .int 7),
        ("suggestions", .arr [.str "建议添加更多小标题",
                              .str "考虑增加代码示例",
                              .str "添加相关图片"])]

/-- Model of `ContentService.analyze_content_performance`: on an AI failure
the `except Exception` branch returns `basicAnalysis` instead of re-raising;
on success the parsed response is consulted via `.get` with default scores.
When the parsed response is not a dict, Python's `.get` raises
`AttributeError`, which the same `except` branch converts to
`basicAnalysis`. -/
def analyze_content_performance (content : String) (ai : Except String String) : JVal :=
  match ai with
  | .error _ => basicAnalysis content
  | .ok r =>
    match parse_analysis_response r with
    | .obj kvs =>
      .obj [("word_count", .int (tokCount content.data : Int)),
            ("reading_time", .int (estimate_reading_time content : Int)),
            ("seo_score", jgetD kvs "seo_score" (.int 7)),
            ("readability_score", jgetD kvs "readability_score" (.int 7)),
            ("engagement_potential", jgetD kvs "engagement_potential" (.int 7)),
            ("suggestions", jgetD kvs "suggestions" (.arr []))]
    | _ => basicAnalysis content

/-! ## Claim C2: structured-response parsing -/

/-- Claim C2, counterexample.  The claim says the parsed result always has
the task-required keys `title`, `summary`, `content`.  But on the input
`"{}"` — valid JSON — `json.loads` succeeds with an empty dict, which is
returned as-is and has no `title` key. -/
theorem c2_counterexample :
    parse_content_response "\x7b\x7d" = JVal.obj [] ∧
      jget (parse_content_response "\x7b\x7d") "title" = none :=
  ⟨rfl, rfl⟩

/-- Claim C2 (amended): parsing is total (never raises).  When JSON decoding
fails, the fallback carries all task-required keys with the original text in
the `content` field; when decoding succeeds, the decoded value is returned
unchanged — it may lack the required keys or not be a mapping at all. -/
theorem c2_parse_fallback (s : String) :
    (json_loads s = none →
      parse_content_response s
        = .obj [("title", .str "生成的博文"),
                ("summary", .str "博文摘要"),
                ("content", .str s)]
      ∧ jget (parse_content_response s) "content" = some (.str s)
      ∧ (jget (parse_content_response s) "title").isSome = true
      ∧ (jget (parse_content_response s) "summary").isSome = true)
    ∧ (∀ v, json_loads s = some v → parse_content_response s = v) := by
  constructor
  · intro h
    have hp : parse_content_response s
        = .obj [("title", .str "生成的博文"),
                ("summary", .str "博文摘要"),
                ("content", .str s)] := by
      rw [parse_content_response, h]
    exact ⟨hp, by rw [hp]; rfl, by rw [hp]; rfl, by rw [hp]; rfl⟩
  · intro v h
    rw [parse_content_response, h]

/-- Witness for `c2_parse_fallback` on the non-JSON input `"not json"`. -/
theorem c2_witness :
    jget (parse_content_response "not json") "content" = some (.str "not json") ∧
      (jget (parse_content_response "not json") "title").isSome = true :=
  ⟨((c2_parse_fallback "not json").1 rfl).2.1,
   ((c2_parse_fallback "not json").1 rfl).2.2.1⟩

/-! ## Claim C3: failure propagation in the pipeline -/

/-- Claim C3, counterexample.  The claim says every pipeline task propagates
an AI failure unchanged.  But `analyze_content_performance` catches the
failure and substitutes its own fallback analysis with default scores. -/
theorem c3_counterexample :
    analyze_content_performance "hello world" (Except.error "boom")
      = JVal.obj [("word_count", .int 2), ("reading_time", .int 1),
                  ("seo_score", .int 7), ("readability_score", .int 7),
                  ("engagement_potential", .int 7),
                  ("suggestions", .arr [.str "建议添加更多小标题",
                                        .str "考虑增加代码示例",
                                        .str "添加相关图片"])] := rfl

/-- Claim C3 (amended): content generation, optimization and outline
generation propagate an AI failure to the caller unchanged, but performance
analysis catches the failure and returns a locally computed basic analysis
with default scores instead. -/
theorem c3_propagation (e : String) (content : String) :
    generate_blog_content (.error e) = .error e
    ∧ optimize_content (.error e) = .error e
    ∧ generate_outline (.error e) = .error e
    ∧ analyze_content_performance content (.error e) = basicAnalysis content :=
  ⟨rfl, rfl, rfl, rfl⟩

/-! ## Claim C5: reading-time estimate -/

set_option maxRecDepth 4000 in
/-- Claim C5, counterexample.  The claim says the token count is divided by
200 and rounded UP.  A content of 250 whitespace-separated tokens would then
give 2 minutes, but the code uses Python's `round` (nearest, ties to even):
`round(250 / 200) = round(1.25) = 1`. -/
theorem c5_counterexample :
    estimate_reading_time ⟨(List.replicate 250 ['a', ' ']).flatten⟩ = 1 ∧
      specReadingTime ⟨(List.replicate 250 ['a', ' ']).flatten⟩ = 2 :=
  ⟨rfl, rfl⟩

/-- Claim C5 (amended): the reading-time estimate is
`max(1, round(tokens / 200))` with round-half-to-even (not round-up); it is
always at least 1 and is monotonically non-decreasing in the token count. -/
theorem c5_reading_time (content : String) (n k : Nat) :
    estimate_reading_time content
      = readingTimeOfCount (tokCount (stripMarkers content))
    ∧ 1 ≤ estimate_reading_time content
    ∧ readingTimeOfCount n ≤ readingTimeOfCount (n + k) := by
  refine ⟨rfl, Nat.le_max_left 1 _, ?_⟩
  have h : pyRound200 n ≤ pyRound200 (n + k) := by
    unfold pyRound200
    repeat' split
    all_goals omega
  exact max_le_max (le_refl 1) h

/-! ## Batch runner (media_server.batch_generate_images)

A per-item call to `generate_image` either returns a result dict — which
signals failure by carrying an `"error"` key — or raises.  Only the presence
of the `"error"` key matters to the batch logic, so a result dict is modelled
by its optional error message. -/

/-- A result dict, reduced to its optional `"error"` entry. -/
structure ResDict where
  err : Option String
  deriving DecidableEq

/-- Outcome of one `generate_image` call: a returned dict or a raised
exception. -/
inductive CallResult where
  | res (d : ResDict)
  | exn (msg : String)
  deriving DecidableEq

/-- The dict stored in the item's outcome slot: the returned dict, or the
synthesized error dict for a raised exception. -/
def resultOf : CallResult → ResDict
  | .res d => d
  | .exn m => ⟨some m⟩

/-- Whether the item increments `failed_count`. -/
def isFail : CallResult → Bool
  | .res d => d.err.isSome
  | .exn _ => true

/-- One entry of the `results` list. -/
structure Slot where
  index : Nat
  prompt : String
  result : ResDict
  deriving DecidableEq

/-- The per-item loop of `batch_generate_images`: builds the ordered slot
list (1-based indices) and the failure count.  A failure is captured in its
slot and the loop continues with the remaining items.  The inter-item
`asyncio.sleep` delay has no effect on the returned data. -/
def runLoop (i : Nat) : List (String × CallResult) → List Slot × Nat
  | [] => ([], 0)
  | item :: rest =>
    let pr := runLoop (i + 1) rest
    (⟨i + 1, item.1, resultOf item.2⟩ :: pr.1,
     (if isFail item.2 then 1 else 0) + pr.2)

/-- The summary dict of a completed batch. -/
structure BatchSummary where
  total_count : Nat
  success_count : Nat
  failed_count : Nat
  success_rate : ℚ
  results : List Slot
  deriving DecidableEq

/-- Return value of `batch_generate_images`: either the summary dict or the
`{"error": ...}` dict produced by the surrounding `except` handler. -/
inductive BatchReturn where
  | summary (s : BatchSummary)
  | errDict (msg : String)
  deriving DecidableEq

/-- Python's `round` on a rational: round half to even. -/
def pyRoundHalfEven (q : ℚ) : Int :=
  if q - ⌊q⌋ < 1/2 then ⌊q⌋
  else if (1 : ℚ)/2 < q - ⌊q⌋ then ⌊q⌋ + 1
  else if ⌊q⌋ % 2 = 0 then ⌊q⌋ else ⌊q⌋ + 1

/-- Python's `round(x, 1)`: one decimal place, ties to even. -/
def pyRound1 (q : ℚ) : ℚ :=
  (pyRoundHalfEven (q * 10) : ℚ) / 10

/-- Model of `batch_generate_images`.  On an empty prompt list the
success-rate expression divides by `len(prompts) == 0`; the resulting
`ZeroDivisionError` is caught by the function's outer `except`, which
returns the `{"error": str(e)}` dict instead of a summary. -/
def batch_generate_images (items : List (String × CallResult)) : BatchReturn :=
  let pr := runLoop 0 items
  let tot := items.length
  if tot = 0 then .errDict "division by zero"
  else .summary ⟨tot, tot - pr.2, pr.2,
    pyRound1 (((tot - pr.2 : Nat) : ℚ) / (tot : ℚ) * 100), pr.1⟩

theorem runLoop_count (i : Nat) (items : List (String × CallResult)) :
    (runLoop i items).2 = items.countP (fun it => isFail it.2) := by
  induction items generalizing i with
  | nil => rfl
  | cons item rest ih =>
    rw [runLoop, List.countP_cons, ih (i + 1)]
    cases isFail item.2 <;> simp [Nat.add_comm]

theorem runLoop_map (i : Nat) (items : List (String × CallResult)) :
    (runLoop i items).1.map (fun sl => (sl.prompt, sl.result.err.isSome))
      = items.map (fun it => (it.1, isFail it.2)) := by
  induction items generalizing i with
  | nil => rfl
  | cons item rest ih =>
    rw [runLoop, List.map_cons, List.map_cons, ih (i + 1)]
    have hres : (resultOf item.2).err.isSome = isFail item.2 := by
      cases h2 : item.2 with
      | res d => rfl
      | exn m => rfl
    rw [List.cons_eq_cons]
    exact ⟨by rw [hres], rfl⟩

theorem runLoop_idx (i : Nat) (items : List (String × CallResult)) :
    (runLoop i items).1.map (fun sl => sl.index)
      = List.range' (i + 1) items.length := by
  induction items generalizing i with
  | nil => rfl
  | cons item rest ih =>
    rw [runLoop, List.map_cons, List.length_cons, List.range'_succ, ih (i + 1)]

/-! ## Claims C4, C8, C9: batch aggregation -/

/-- Claim C4 (confirmed): for every non-empty batch and any mix of
per-item outcomes, the batch returns a summary whose counters satisfy
`succeeded + failed = total`, whose failure count counts exactly the failing
items, and whose outcome sequence has one slot per item, in input order
(prompts and 1-based indices in sequence), with each failing item's slot
carrying an error entry while later items still get slots. -/
theorem c4_batch_invariants (x : String × CallResult)
    (xs : List (String × CallResult)) :
    ∃ s, batch_generate_images (x :: xs) = .summary s
      ∧ s.total_count = (x :: xs).length
      ∧ s.success_count + s.failed_count = (x :: xs).length
      ∧ s.failed_count = (x :: xs).countP (fun it => isFail it.2)
      ∧ s.results.map (fun sl => (sl.prompt, sl.result.err.isSome))
          = (x :: xs).map (fun it => (it.1, isFail it.2))
      ∧ s.results.map (fun sl => sl.index) = List.range' 1 (x :: xs).length := by
  have hne : (x :: xs).length ≠ 0 := by simp
  rw [batch_generate_images]
  rw [if_neg hne]
  refine ⟨_, rfl, rfl, ?_, ?_, ?_, ?_⟩
  · have hc := runLoop_count 0 (x :: xs)
    have hle : (x :: xs).countP (fun it => isFail it.2) ≤ (x :: xs).length :=
      List.countP_le_length _
    dsimp only
    omega
  · exact runLoop_count 0 (x :: xs)
  · exact runLoop_map 0 (x :: xs)
  · exact runLoop_idx 0 (x :: xs)

/-- Claim C8, counterexample.  The claim says the reported success rate is
`succeeded / total` rounded to one decimal.  A batch of one succeeding item
reports `100.0` — the code computes a percentage (`... * 100`) — whereas the
claimed formula gives `1.0`. -/
theorem c8_counterexample :
    batch_generate_images [("p", CallResult.res ⟨none⟩)]
        = BatchReturn.summary ⟨1, 1, 0, 100, [⟨1, "p", ⟨none⟩⟩]⟩
      ∧ pyRound1 ((1 : ℚ) / 1) = 1 ∧ (100 : ℚ) ≠ 1 := by
  refine ⟨?_, ?_, by norm_num⟩
  · simp only [batch_generate_images, runLoop, resultOf, isFail, Option.isSome,
      List.length_cons, List.length_nil]
    norm_num [pyRound1, pyRoundHalfEven]
  · norm_num [pyRound1, pyRoundHalfEven]

/-- Claim C8 (amended): for every non-empty batch the reported success rate
equals `succeeded / total * 100` — a percentage — rounded to one decimal
place (ties to even). -/
theorem c8_success_rate (x : String × CallResult)
    (xs : List (String × CallResult)) :
    ∃ s, batch_generate_images (x :: xs) = .summary s
      ∧ s.success_rate
          = pyRound1 (((((x :: xs).length
                - (x :: xs).countP (fun it => isFail it.2) : Nat)) : ℚ)
              / ((x :: xs).length : ℚ) * 100) := by
  have hne : (x :: xs).length ≠ 0 := by simp
  rw [batch_generate_images]
  rw [if_neg hne]
  exact ⟨_, rfl, by rw [runLoop_count 0 (x :: xs)]⟩

/-- Claim C9 (confirmed): an empty prompt list yields neither an exception
nor a summary with counters; the division by zero in the success rate is
caught by the surrounding handler, which returns the error dict. -/
theorem c9_empty_batch :
    batch_generate_images [] = BatchReturn.errDict "division by zero" := rfl

/-! ## AI service (ai_service.py)

`AIService` holds at most two text backends: the DeepSeek REST endpoint
(used when `Config.DEEPSEEK_API_KEY` is set and non-empty) and an OpenAI
client (initialized when `Config.OPENAI_API_KEY` is set).  The network
layer is external; a dispatched request is represented by the backend and
the parameters it would be sent with, so two calls behave identically
exactly when they produce the same request. -/

/-- Which backends are configured. -/
structure AIConfig where
  deepseek_api_key : Option String
  openai_configured : Bool
  deriving DecidableEq

/-- The outbound request a successful dispatch would issue. -/
inductive AIReq where
  | deepseek (prompt : String) (max_tokens : Nat) (temperature : ℚ)
  | openai (model : String) (prompt : String) (max_tokens : Nat) (temperature : ℚ)
  deriving DecidableEq

/-- Model of `AIService._generate_with_deepseek`: raises when the DeepSeek
key is unset (or empty — Python tests truthiness). -/
def generate_with_deepseek (cfg : AIConfig) (prompt : String)
    (max_tokens : Nat) (temperature : ℚ) : Except String AIReq :=
  match cfg.deepseek_api_key with
  | none => .error "DeepSeek API 密钥未配置"
  | some _ => .ok (.deepseek prompt max_tokens temperature)

/-- Model of `AIService._generate_with_openai`: raises when the OpenAI
client was never initialized. -/
def generate_with_openai (cfg : AIConfig) (model prompt : String)
    (max_tokens : Nat) (temperature : ℚ) : Except String AIReq :=
  if cfg.openai_configured then .ok (.openai model prompt max_tokens temperature)
  else .error "OpenAI 客户端未初始化"

/-- Model of `AIService.generate_text`: dispatch on the model name —
`"deepseek"` to DeepSeek, names starting with `"gpt"` to OpenAI, anything
else to DeepSeek by default.  The surrounding `try`/`except` logs and
re-raises, so backend failures propagate. -/
def generate_text (cfg : AIConfig) (prompt model : String)
    (max_tokens : Nat) (temperature : ℚ) : Except String AIReq :=
  if model = "deepseek" then generate_with_deepseek cfg prompt max_tokens temperature
  else if startsWithCh "gpt".data model.data then
    generate_with_openai cfg model prompt max_tokens temperature
  else generate_with_deepseek cfg prompt max_tokens temperature

/-! ## Claims C6 and C10: provider selection -/

/-- Claim C6, counterexample.  The claim says a request naming an
unavailable provider falls back to the first configured text-capable
provider and only errors when none is configured.  But with DeepSeek
configured and OpenAI not, a `"gpt-4"` request errors instead of falling
back to the working DeepSeek backend. -/
theorem c6_counterexample :
    generate_text ⟨some "key", false⟩ "p" "gpt-4" 4000 (7/10)
        = .error "OpenAI 客户端未初始化"
      ∧ (⟨some "key", false⟩ : AIConfig).deepseek_api_key.isSome = true
      ∧ generate_text ⟨some "key", false⟩ "p" "deepseek" 4000 (7/10)
        = .ok (.deepseek "p" 4000 (7/10)) :=
  ⟨rfl, rfl, rfl⟩

/-- Claim C6 (amended): `generate_text` dispatches purely on the model
name — `"gpt*"` to OpenAI, everything else (including the `"deepseek"`
default) to DeepSeek — and fails with the backend's configuration error
exactly when that one dispatched backend is unconfigured, regardless of
whether another text-capable provider is configured. -/
theorem c6_dispatch (cfg : AIConfig) (prompt model : String)
    (mt : Nat) (t : ℚ) :
    (startsWithCh "gpt".data model.data = true →
      generate_text cfg prompt model mt t = generate_with_openai cfg model prompt mt t
      ∧ ((∃ e, generate_text cfg prompt model mt t = .error e)
          ↔ cfg.openai_configured = false))
    ∧ (startsWithCh "gpt".data model.data = false →
      generate_text cfg prompt model mt t = generate_with_deepseek cfg prompt mt t
      ∧ ((∃ e, generate_text cfg prompt model mt t = .error e)
          ↔ cfg.deepseek_api_key = none)) := by
  constructor
  · intro h
    have hne : model ≠ "deepseek" := by
      intro he
      subst he
      exact absurd h (by decide)
    have hg : generate_text cfg prompt model mt t
        = generate_with_openai cfg model prompt mt t := by
      rw [generate_text, if_neg hne, if_pos h]
    refine ⟨hg, ?_⟩
    rw [hg, generate_with_openai]
    cases hc : cfg.openai_configured <;> simp
  · intro h
    have hg : generate_text cfg prompt model mt t
        = generate_with_deepseek cfg prompt mt t := by
      by_cases hd : model = "deepseek"
      · rw [generate_text, if_pos hd]
      · rw [generate_text, if_neg hd, if_neg (by rw [h]; exact Bool.false_ne_true)]
    refine ⟨hg, ?_⟩
    rw [hg, generate_with_deepseek]
    cases hk : cfg.deepseek_api_key <;> simp

/-- Witness for `c6_dispatch`: with only DeepSeek configured, a `"gpt-4"`
request goes to (unconfigured) OpenAI and a `"llama"` request goes to
DeepSeek. -/
theorem c6_witness :
    generate_text ⟨some "key", false⟩ "p" "gpt-4" 4000 (7/10)
        = generate_with_openai ⟨some "key", false⟩ "gpt-4" "p" 4000 (7/10)
      ∧ generate_text ⟨some "key", false⟩ "p" "llama" 4000 (7/10)
        = generate_with_deepseek ⟨some "key", false⟩ "p" 4000 (7/10) :=
  ⟨((c6_dispatch ⟨some "key", false⟩ "p" "gpt-4" 4000 (7/10)).1 (by decide)).1,
   ((c6_dispatch ⟨some "key", false⟩ "p" "llama" 4000 (7/10)).2 (by decide)).1⟩

/-- Claim C10 (confirmed): any model name that is neither `"deepseek"` nor a
`"gpt*"` name falls into the default branch and behaves exactly like an
explicit `"deepseek"` request with the same prompt, token limit and
temperature. -/
theorem c10_default_dispatch (cfg : AIConfig) (prompt model : String)
    (mt : Nat) (t : ℚ)
    (h1 : model ≠ "deepseek")
    (h2 : startsWithCh "gpt".data model.data = false) :
    generate_text cfg prompt model mt t
      = generate_text cfg prompt "deepseek" mt t := by
  rw [generate_text, if_neg h1, if_neg (by rw [h2]; exact Bool.false_ne_true),
    generate_text, if_pos rfl]

/-- Witness for `c10_default_dispatch` at the model name `"llama"`. -/
theorem c10_witness :
    generate_text ⟨some "key", true⟩ "p" "llama" 4000 (7/10)
      = generate_text ⟨some "key", true⟩ "p" "deepseek" 4000 (7/10) :=
  c10_default_dispatch ⟨some "key", true⟩ "p" "llama" 4000 (7/10)
    (by decide) (by decide)
